import Mathlib

/-!
# Verification of the conversation-bound workflow execution engine

Shallow embedding of the persisted, suspendable workflow engine
(`src/services/workflowExecutor.service.ts`, state store in
`lib/workflowStateManager.ts`, loop detector in `lib/workflowLoopDetector`)
and of the retry/dispatch core of the synchronous engine
(`src/services/workflow.service.ts`).

Modelling conventions:
* JavaScript runtime values carried in workflow variables and node configs
  are modelled by `JsonVal`; JS numbers are modelled as `Int` (all numeric
  literals relevant here are integers), `NaN` as a failed coercion
  (`Option.none`).  Strict equality `===` on arrays/objects is reference
  equality and is conservatively modelled as `false` (no two distinct
  syntactic occurrences are the same reference).
* External capabilities (OpenAI calls, regex engine, `fetch`, e-mail,
  database rows, the wall clock) are parameters of the interpreter,
  collected in the `Oracle` structure: the engine is verified for every
  oracle, and concrete oracles are supplied in witnesses.
* The `async`/`await` plumbing, the Redis lock (`withLock` — the model is a
  single totally-ordered burst, which is exactly what the lock enforces per
  conversation), and real time (`setTimeout` sleeps) are erased; effects on
  the outside world (messages sent, HTTP fetches, e-mails, DB updates) are
  accumulated in an explicit effect trace.
* Unbounded recursion of `processNextNode` is modelled with explicit fuel;
  exhausting the fuel (`RunResult.fuelOut`) means the real program is still
  running (or runs forever).
-/

/-- A JSON-ish JavaScript runtime value (variables, config values). -/
inductive JsonVal where
  | str (s : String)
  | num (n : Int)
  | bool (b : Bool)
  | null
  | undefined
  | arr (elems : List JsonVal)
  | obj (fields : List (String × JsonVal))

/-- JS truthiness (`if (v)`). -/
def jsTruthy : JsonVal → Bool
  | .str s => s ≠ ""
  | .num n => n ≠ 0
  | .bool b => b
  | .null => false
  | .undefined => false
  | .arr _ => true
  | .obj _ => true

mutual

/-- JS `String(v)` coercion (arrays join with `,`, objects print opaquely). -/
def jsString : JsonVal → String
  | .str s => s
  | .num n => toString n
  | .bool b => if b then "true" else "false"
  | .null => "null"
  | .undefined => "undefined"
  | .arr es => String.intercalate "," (jsStringList es)
  | .obj _ => "[object Object]"

/-- `String(v)` for each element of an array value. -/
def jsStringList : List JsonVal → List String
  | [] => []
  | v :: vs => jsString v :: jsStringList vs

end

/-- Substring test on character lists: does `s` start with `pat`? -/
def charsStart : List Char → List Char → Bool
  | _, [] => true
  | [], _ :: _ => false
  | a :: as, b :: bs => a == b && charsStart as bs

/-- Substring test on character lists (JS `String.prototype.includes`). -/
def charsHave (pat : List Char) : List Char → Bool
  | [] => charsStart [] pat
  | c :: rest => charsStart (c :: rest) pat || charsHave pat rest

/-- JS `s.includes(pat)`. -/
def hasSubstring (s pat : String) : Bool :=
  charsHave pat.toList s.toList

/-- `s.startsWith(pre)` (char-level, so that concrete runs evaluate). -/
def strStarts (s pre : String) : Bool :=
  charsStart s.toList pre.toList

/-- `s.toLowerCase()` (char-level). -/
def strToLower (s : String) : String :=
  String.mk (s.toList.map Char.toLower)

/-- Trim leading/trailing whitespace (JS `trim()`, char-level). -/
def strTrim (s : String) : String :=
  String.mk
    (((s.toList.dropWhile Char.isWhitespace).reverse.dropWhile Char.isWhitespace).reverse)

/-- Digits of a decimal literal. -/
def charsToNatAux : List Char → Nat → Option Nat
  | [], acc => some acc
  | c :: rest, acc =>
    if c.isDigit then charsToNatAux rest (acc * 10 + (c.toNat - 48)) else none

/-- Parse an optionally signed decimal integer (the fragment of JS string →
number coercion the engine relies on). -/
def strToInt (s : String) : Option Int :=
  match s.toList with
  | [] => none
  | '-' :: [] => none
  | '-' :: rest => (charsToNatAux rest 0).map (fun n => -(n : Int))
  | cs => (charsToNatAux cs 0).map (fun n => (n : Int))

/-- JS `Number(v)` coercion; `none` models `NaN` (non-numeric strings,
`undefined`; arrays/objects are abstracted to `NaN`). -/
def jsNumber : JsonVal → Option Int
  | .num n => some n
  | .bool b => some (if b then 1 else 0)
  | .null => some 0
  | .undefined => none
  | .str s => let t := strTrim s; if t = "" then some 0 else strToInt t
  | .arr _ => none
  | .obj _ => none

/-- JS strict equality `===` on the values that occur in conditions.
Arrays/objects compare by reference, modelled conservatively as `false`. -/
def jsStrictEq : JsonVal → JsonVal → Bool
  | .str a, .str b => a == b
  | .num a, .num b => a == b
  | .bool a, .bool b => a == b
  | .null, .null => true
  | .undefined, .undefined => true
  | _, _ => false

/-- `a || b` for an optional string against a default (JS: `""` is falsy). -/
def jsOrStr (a : Option String) (b : String) : String :=
  match a with
  | some s => if s = "" then b else s
  | none => b

/-- `a || b` for an optional number against a default (JS: `0` is falsy). -/
def jsOrNat (a : Option Nat) (b : Nat) : Nat :=
  match a with
  | some n => if n = 0 then b else n
  | none => b

/-- `a || b` for an optional config value against a default. -/
def jsOrVal (a : Option JsonVal) (b : JsonVal) : JsonVal :=
  match a with
  | some v => if jsTruthy v then v else b
  | none => b

/-- Truthiness of an optional string field (`if (config.message)`). -/
def jsTruthyStr : Option String → Bool
  | none => false
  | some s => s ≠ ""

/-- JS falsiness check used by `if (!field || !operator)` on string fields
(absent or empty string). -/
def jsFalsyStr : Option String → Bool
  | none => true
  | some s => s = ""

/-- The variable map of an execution context: a JS object, modelled as an
association list (first binding wins on lookup). -/
abbrev Variables := List (String × JsonVal)

/-- `variables[field]` — JS returns `undefined` for a missing key. -/
def getVar (vars : Variables) (k : String) : JsonVal :=
  (List.lookup k vars).getD .undefined

/-- `variables.lastUserMessage || ""` style read of a string variable. -/
def jsStrVar (vars : Variables) (k : String) : String :=
  let v := getVar vars k
  if jsTruthy v then jsString v else ""

/-- Object spread `{...a, ...b}`: bindings of `b` win. -/
def mergeVars (a b : Variables) : Variables :=
  b ++ a

/-- `variables[k] = v` (JS property assignment). -/
def setVar (vars : Variables) (k : String) (v : JsonVal) : Variables :=
  (k, v) :: vars

/-- An edge guard `{field, operator, value}` as stored on workflow edges. -/
structure Condition where
  field : Option String
  operator : Option String
  value : JsonVal

/-- `evaluateCondition` of the persisted engine
(`workflowExecutor.service.ts` lines 493–520): a missing `field` or
`operator` and any unrecognized operator fall through to `true`; every
branch returns a boolean, no branch can throw. -/
def evaluateCondition (condition : Condition) (vars : Variables) : Bool :=
  if jsFalsyStr condition.field || jsFalsyStr condition.operator then true
  else
    let fieldValue := getVar vars (condition.field.getD "")
    match condition.operator.getD "" with
    | "equals" => jsStrictEq fieldValue condition.value
    | "notEquals" => !jsStrictEq fieldValue condition.value
    | "contains" => hasSubstring (jsString fieldValue) (jsString condition.value)
    | "notContains" => !hasSubstring (jsString fieldValue) (jsString condition.value)
    | "greaterThan" =>
      match jsNumber fieldValue, jsNumber condition.value with
      | some a, some b => a > b
      | _, _ => false
    | "lessThan" =>
      match jsNumber fieldValue, jsNumber condition.value with
      | some a, some b => a < b
      | _, _ => false
    | "exists" => !(jsStrictEq fieldValue .undefined || jsStrictEq fieldValue .null)
    | "notExists" => jsStrictEq fieldValue .undefined || jsStrictEq fieldValue .null
    | _ => true

/-- The operator names the persisted engine's `evaluateCondition` actually
implements (its `switch` cases). -/
def implementedOperators : List String :=
  ["equals", "notEquals", "contains", "notContains",
   "greaterThan", "lessThan", "exists", "notExists"]
/-! ## Workflow graph data model (Prisma rows as loaded by the engine) -/

/-- The `expectedInputValidation` record stored on a suspended context
(`lib/workflowStateManager.ts`). -/
structure InputValidation where
  type : Option String := none
  pattern : Option String := none
  errorMessage : Option String := none

/-- A workflow node row: `{id, type, config, label}`.  `type` is kept as a
string because the engine dispatches on it with a runtime `switch` whose
default case is exactly what claim C3 is about. -/
structure NodeCfg where
  duration : Option Nat := none
  message : Option String := none
  patterns : Option (List String) := none
  intents : Option (List String) := none
  prompt : Option String := none
  keywords : Option (List String) := none
  caseSensitive : Option Bool := none
  pattern : Option String := none
  flags : Option String := none
  field : Option String := none
  value : Option JsonVal := none
  «variable» : Option String := none
  sentiment : Option String := none
  startHour : Option Nat := none
  endHour : Option Nat := none
  workDays : Option (List Nat) := none
  waitForResponse : Option Bool := none
  inputType : Option String := none
  validationType : Option String := none
  regexPattern : Option String := none
  variableName : Option String := none
  url : Option String := none
  body : Option JsonVal := none
  «to» : Option String := none
  subject : Option String := none
  userId : Option String := none
  knowledgeBaseId : Option String := none
  limit : Option Nat := none
  fields : Option (List String) := none
  format : Option String := none
  timeout : Option Nat := none
  retryOnError : Bool := false
  maxRetries : Option Nat := none
  continueOnError : Bool := false

structure Node where
  id : String
  type : String
  label : String := ""
  config : NodeCfg := {}

structure Edge where
  id : String := ""
  sourceNodeId : String
  targetNodeId : String
  condition : Option Condition := none

structure Workflow where
  nodes : List Node
  edges : List Edge

/-- `ConversationExecutionContext` (`lib/workflowStateManager.ts`). -/
structure Ctx where
  conversationId : String
  workflowId : String := ""
  executionId : String
  currentNodeId : Option String
  «variables» : Variables := []
  waitingForInput : Bool := false
  expectedInputType : Option String := none
  expectedInputValidation : Option InputValidation := none
  workflow : Workflow

/-! ## External world: effects, oracle, durable state -/

/-- An observable side effect on a collaborator, in program order. -/
inductive Effect where
  | sentMsg (conversationId text : String)
  | fetch (url : String)
  | email (recipient subject body : String)
  | dbUpdate (description : String)

/-- Outcome of the `fetch` capability: `.success body status ok`, or
`.failure msg` for a network error / JSON parse error (the source catches
both into `apiError`). -/
inductive FetchRes where
  | success (body : JsonVal) (status : Int) (ok : Bool)
  | failure (message : String)

/-- A knowledge-base search hit `{content, score, title}`. -/
structure KbHit where
  content : String
  score : Int := 0
  title : String := ""

/-- External capabilities consumed by node executors.  The engine is
verified for an arbitrary oracle; concrete oracles appear in witnesses.
Config fields that are merely forwarded to a capability (HTTP method,
headers, AI model name, temperature) are absorbed by the oracle.
`regexTest pattern flags text` returns `none` when the pattern is invalid
(the JS `RegExp` constructor throws). -/
structure Oracle where
  regexTest : String → String → String → Option Bool := fun _ _ _ => some false
  emailTest : String → Bool := fun _ => false
  phoneTest : String → Bool := fun _ => false
  classifyIntent : List String → String → String := fun _ _ => ""
  sentimentOf : String → String := fun _ => "neutral"
  nowHour : Nat := 12
  nowDay : Nat := 3
  fetchUrl : String → FetchRes := fun _ => .failure "fetch failed"
  emailSend : String → String → String → Bool := fun _ _ _ => true
  aiChat : String → String → String := fun _ _ => ""
  kbSearch : String → String → Nat → List KbHit := fun _ _ _ => []
  aiExtract : List String → String → Option JsonVal := fun _ _ => none
  aiValidate : String → String → Option (Bool × Option String) := fun _ _ => none

/-- Status column of a `workflowExecution` row. -/
inductive ExecStatus where
  | RUNNING
  | COMPLETED
  | FAILED (error : String)
deriving DecidableEq

/-- The durable state visible across bursts: the Redis context store
(`WorkflowStateManager`, one record under a conversation-scoped key),
the `workflowExecution` status rows, and the accumulated effect trace. -/
structure EngineState where
  contexts : List (String × Ctx) := []
  executions : List (String × ExecStatus) := []
  effects : List Effect := []

/-- `WorkflowStateManager.saveContext`: upsert under the conversation key. -/
def saveContext (st : EngineState) (ctx : Ctx) : EngineState :=
  { st with contexts :=
      (ctx.conversationId, ctx) :: st.contexts.filter (fun p => p.1 != ctx.conversationId) }

/-- `WorkflowStateManager.getContext`. -/
def getContext (st : EngineState) (conversationId : String) : Option Ctx :=
  List.lookup conversationId st.contexts

/-- `WorkflowStateManager.deleteContext`. -/
def deleteContext (st : EngineState) (conversationId : String) : EngineState :=
  { st with contexts := st.contexts.filter (fun p => p.1 != conversationId) }

/-- `markExecutionCompleted` / `markExecutionFailed`: update the status of
the `workflowExecution` row.  Note that `markExecutionFailed` touches only
that row — it does not delete the Redis context. -/
def setExecStatus (st : EngineState) (executionId : String) (s : ExecStatus) : EngineState :=
  { st with executions :=
      (executionId, s) :: st.executions.filter (fun p => p.1 != executionId) }

/-! ## Variable interpolation -/

/-- `interpolateVariables` (`workflowExecutor.service.ts` lines 1071–1088):
replace every occurrence of the braced variable name by
`String(variables[key] || "")`, truncating values above 10000 chars. -/
def interpolateVariables (text : String) (vars : Variables) : String :=
  ((vars.map Prod.fst).eraseDups).foldl
    (fun acc key =>
      let value := jsStrVar vars key
      let value := if value.length > 10000 then value.take 10000 ++ "..." else value
      acc.replace ("\x7b\x7b" ++ key ++ "\x7d\x7d") value)
    text

/-! ## Edge router (`findNextNode`, lines 420–488) -/

/-- Whether an edge is taken: its condition evaluates true, or it has none. -/
def edgeTaken (vars : Variables) (e : Edge) : Bool :=
  match e.condition with
  | some c => evaluateCondition c vars
  | none => true

/-- The body of `findNextNode`'s `for` loop over the outgoing edges: first
edge whose condition holds (or that has no condition) wins; falling off the
loop returns `null`. -/
def findNextAux (vars : Variables) : List Edge → Option String
  | [] => none
  | e :: rest =>
    match e.condition with
    | some c => if evaluateCondition c vars then some e.targetNodeId else findNextAux vars rest
    | none => some e.targetNodeId

/-- `findNextNode(currentNode, context)`: filter the outgoing edges of the
current node and scan them in definition order.  (The early `return null`
for zero outgoing edges coincides with the loop falling through.) -/
def findNextNode (currentNode : Node) (ctx : Ctx) : Option String :=
  let outgoingEdges := ctx.workflow.edges.filter (fun e => e.sourceNodeId == currentNode.id)
  findNextAux ctx.variables outgoingEdges

/-- `isNextNodeCondition` (lines 777–797): used by `ACTION_MESSAGE` to
auto-detect whether it should wait for a reply. -/
def isNextNodeCondition (ctx : Ctx) : Bool :=
  match ctx.workflow.nodes.find? (fun n => some n.id == ctx.currentNodeId) with
  | none => false
  | some currentNode =>
    let outgoingEdges := ctx.workflow.edges.filter (fun e => e.sourceNodeId == currentNode.id)
    outgoingEdges.any (fun e =>
      match ctx.workflow.nodes.find? (fun n => n.id == e.targetNodeId) with
      | some targetNode => strStarts targetNode.type "CONDITION_"
      | none => false)

/-! ## Node executors (persisted engine, lines 526–1063)

Executors may mutate the context only by setting `waitingForInput` (never
clearing it) and `expectedInputType`; that mutation is modelled by the
`setWaiting` / `setInputType` fields of `ExecOut` and applied by the
dispatcher.  Messages sent appear in `effects` in program order. -/

/-- What a node executor returns: the merged-in result object, the context
mutations it performed, and its external effects. -/
structure ExecOut where
  data : Variables := []
  setWaiting : Bool := false
  setInputType : Option String := none
  effects : List Effect := []

/-- `TRIGGER_WAIT` (the `setTimeout` sleep is erased; the optional message
is interpolated and sent first). -/
def executeTriggerWait (config : NodeCfg) (ctx : Ctx) : ExecOut :=
  let duration := jsOrNat config.duration 1000
  let effs :=
    if jsTruthyStr config.message then
      [Effect.sentMsg ctx.conversationId
        (interpolateVariables (config.message.getD "") ctx.variables)]
    else []
  { data := [("waitCompleted", .bool true), ("waitedMs", .num duration)], effects := effs }

/-- `TRIGGER_MESSAGE`: first configured pattern contained (case-insensitive)
in the last user message. -/
def executeTriggerMessage (config : NodeCfg) (vars : Variables) : ExecOut :=
  let message := jsStrVar vars "lastUserMessage"
  match (config.patterns.getD []).find? (fun p =>
      hasSubstring (strToLower message) (strToLower p)) with
  | some p => { data := [("triggerMatched", .bool true), ("matchedPattern", .str p)] }
  | none => { data := [("triggerMatched", .bool false)] }

/-- `TRIGGER_INTENT`: AI intent classification via the oracle. -/
def executeTriggerIntent (ora : Oracle) (config : NodeCfg) (vars : Variables) : ExecOut :=
  let message := jsStrVar vars "lastUserMessage"
  let expectedIntents := config.intents.getD []
  let detectedIntent := strTrim (ora.classifyIntent expectedIntents message)
  { data := [("intent", .str detectedIntent),
             ("triggerMatched", .bool (expectedIntents.contains detectedIntent))] }

/-- `TRIGGER_USER_INPUT`: marks the context as waiting and optionally sends
the (uninterpolated) prompt. -/
def executeTriggerUserInput (config : NodeCfg) (ctx : Ctx) : ExecOut :=
  { data := [("waitingForInput", .bool true)],
    setWaiting := true,
    effects :=
      if jsTruthyStr config.prompt then
        [Effect.sentMsg ctx.conversationId (config.prompt.getD "")]
      else [] }

/-- `CONDITION_KEYWORD`. -/
def executeConditionKeyword (config : NodeCfg) (vars : Variables) : ExecOut :=
  let text := jsStrVar vars "lastUserMessage"
  let caseSensitive := config.caseSensitive.getD false
  let matched := (config.keywords.getD []).any (fun keyword =>
    if caseSensitive then hasSubstring text keyword
    else hasSubstring (strToLower text) (strToLower keyword))
  { data := [("conditionMet", .bool matched)] }

/-- `CONDITION_REGEX`: over-long patterns are rejected (ReDoS guard),
invalid patterns are caught to `false`; the regex engine is the oracle. -/
def executeConditionRegex (ora : Oracle) (config : NodeCfg) (vars : Variables) : ExecOut :=
  let text := jsStrVar vars "lastUserMessage"
  let pattern := jsOrStr config.pattern ""
  if pattern.length > 500 then { data := [("conditionMet", .bool false)] }
  else
    match ora.regexTest pattern (jsOrStr config.flags "i") text with
    | some b => { data := [("conditionMet", .bool b)] }
    | none => { data := [("conditionMet", .bool false)] }

/-- `CONDITION_EQUALS`: trims whitespace, case-insensitive unless
`caseSensitive === true`. -/
def executeConditionEquals (config : NodeCfg) (vars : Variables) : ExecOut :=
  let field := jsOrStr config.field "lastUserMessage"
  let expectedValue := jsOrVal config.value (.str "")
  let fieldValue := getVar vars field
  let caseSensitive := config.caseSensitive == some true
  let lhs := strTrim (if jsTruthy fieldValue then jsString fieldValue else "")
  let rhs := strTrim (jsString expectedValue)
  let conditionMet :=
    if caseSensitive then lhs == rhs else strToLower lhs == strToLower rhs
  { data := [("conditionMet", .bool conditionMet)] }

/-- `CONDITION_CONTAINS`. -/
def executeConditionContains (config : NodeCfg) (vars : Variables) : ExecOut :=
  let field := jsOrStr config.field "lastUserMessage"
  let value := jsOrVal config.value (.str "")
  let fieldValue := jsStrVar vars field
  { data := [("conditionMet", .bool (hasSubstring fieldValue (jsString value)))] }

/-- `CONDITION_VARIABLE`: the configured variable exists (not null). -/
def executeConditionVariable (config : NodeCfg) (vars : Variables) : ExecOut :=
  let variableName := jsOrStr config.variable ""
  let v := getVar vars variableName
  { data := [("conditionMet", .bool (!(jsStrictEq v .undefined || jsStrictEq v .null)))] }

/-- `CONDITION_SENTIMENT`: AI sentiment via the oracle (response lowercased,
empty response defaults to "neutral"). -/
def executeConditionSentiment (ora : Oracle) (config : NodeCfg) (vars : Variables) : ExecOut :=
  let text := jsStrVar vars "lastUserMessage"
  let expectedSentiment := jsOrStr config.sentiment "positive"
  let sentiment := let s := strToLower (ora.sentimentOf text); if s = "" then "neutral" else s
  { data := [("sentiment", .str sentiment),
             ("conditionMet", .bool (sentiment == expectedSentiment))] }

/-- `CONDITION_TIME`: business-hours check against the oracle's clock. -/
def executeConditionTime (ora : Oracle) (config : NodeCfg) : ExecOut :=
  let startHour := jsOrNat config.startHour 9
  let endHour := jsOrNat config.endHour 17
  let workDays := config.workDays.getD [1, 2, 3, 4, 5]
  let isBusinessHours :=
    decide (startHour ≤ ora.nowHour) && decide (ora.nowHour < endHour)
      && workDays.contains ora.nowDay
  { data := [("isBusinessHours", .bool isBusinessHours),
             ("conditionMet", .bool isBusinessHours)] }

/-- `ACTION_MESSAGE`: sends the interpolated message and optionally starts
waiting for a reply (explicit `waitForResponse` or auto-detected when a
successor is a condition node). -/
def executeActionMessage (config : NodeCfg) (ctx : Ctx) : ExecOut :=
  let message := interpolateVariables (jsOrStr config.message "") ctx.variables
  let effs := [Effect.sentMsg ctx.conversationId message]
  let shouldWait := config.waitForResponse == some true
    || (config.waitForResponse != some false && isNextNodeCondition ctx)
  if shouldWait then
    { data := [("messageSent", .bool true), ("waitingForInput", .bool true)],
      setWaiting := true, effects := effs }
  else
    { data := [("messageSent", .bool true)], effects := effs }

/-- `ACTION_WAIT_FOR_INPUT`: waits, records the expected input type, sends
the interpolated prompt if configured. -/
def executeActionWaitForInput (config : NodeCfg) (ctx : Ctx) : ExecOut :=
  { data := [("waitingForInput", .bool true)],
    setWaiting := true,
    setInputType := some (jsOrStr config.inputType "text"),
    effects :=
      if jsTruthyStr config.prompt then
        [Effect.sentMsg ctx.conversationId
          (interpolateVariables (config.prompt.getD "") ctx.variables)]
      else [] }

/-- `ACTION_VALIDATE_INPUT`.  An invalid `regexPattern` makes the JS
`RegExp` constructor throw (no `try` here), modelled as an error. -/
def executeActionValidateInput (ora : Oracle) (config : NodeCfg) (vars : Variables) :
    Except String ExecOut :=
  let input := jsStrVar vars "lastUserMessage"
  let validationType := jsOrStr config.validationType "text"
  let done := fun (isValid : Bool) (extractedData : JsonVal) =>
    Except.ok { data := [("isValid", .bool isValid),
                         ("validatedInput", extractedData),
                         ("inputType", .str validationType)] : ExecOut }
  match validationType with
  | "email" => done (ora.emailTest input) (.str input)
  | "phone" => done (ora.phoneTest input) (.str input)
  | "number" =>
    match jsNumber (.str input) with
    | some n => done true (.num n)
    | none => done false .undefined
  | "regex" =>
    match ora.regexTest (jsOrStr config.regexPattern ".*") "" input with
    | some b => done b (.str input)
    | none => .error "Invalid regular expression"
  | _ => done (input.length > 0) (.str input)

/-- `ACTION_SET_VARIABLE`. -/
def executeActionSetVariable (config : NodeCfg) (vars : Variables) : ExecOut :=
  let variableName := jsOrStr config.variableName "customVar"
  let value := jsOrVal config.value (.str "")
  { data := [(variableName, .str (interpolateVariables (jsString value) vars))] }

/-! ## SSRF guard and API call (lines 854–922) -/

/-- Split a character list at the first `://`. -/
def schemeSplit : List Char → Option (List Char × List Char)
  | [] => none
  | c :: rest =>
    if charsStart (c :: rest) [':', '/', '/'] then some ([], rest.drop 2)
    else
      match schemeSplit rest with
      | some (pre, post) => some (c :: pre, post)
      | none => none

/-- Minimal WHATWG-URL model: split `scheme://rest` at the first `://`; the
hostname is the part of `rest` before the first `/`, `:`, `?` or `#`,
lowercased (as the URL parser does).  IP-address canonicalisation
(octal/decimal forms) is outside the model; the hostnames in all theorems
below are already canonical. -/
def parseUrl (url : String) : Option (String × String) :=
  match schemeSplit url.toList with
  | some (scheme, rest) =>
    if scheme.isEmpty then none
    else
      let hostname := strToLower (String.mk (rest.takeWhile (fun c =>
        c ≠ '/' && c ≠ ':' && c ≠ '?' && c ≠ '#')))
      if hostname = "" then none
      else some (strToLower (String.mk scheme) ++ ":", hostname)
  | none => none

/-- The exact-match blocklist of `validateApiUrl`. -/
def blockedHosts : List String := ["localhost", "127.0.0.1", "0.0.0.0", "::1"]

/-- The second octet test of the regex `^172\.(1[6-9]|2[0-9]|3[0-1])\.`. -/
def is172Private : List Char → Bool
  | '1' :: '7' :: '2' :: '.' :: c1 :: c2 :: '.' :: _ =>
    (c1 == '1' && ('6' ≤ c2 && c2 ≤ '9'))
      || (c1 == '2' && ('0' ≤ c2 && c2 ≤ '9'))
      || (c1 == '3' && (c2 == '0' || c2 == '1'))
  | _ => false

/-- The private-range prefix test of `validateApiUrl`: `192.168.*`, `10.*`,
`172.16.*`–`172.31.*` (the regex above), and link-local `169.254.*`. -/
def isPrivateHost (hostname : String) : Bool :=
  strStarts hostname "192.168."
    || strStarts hostname "10."
    || is172Private hostname.toList
    || strStarts hostname "169.254."

/-- `validateApiUrl` (lines 854–885): blocklist, private ranges, protocol
check; the surrounding `catch` rethrows only errors starting with `Cannot`
and maps everything else (parse failure, bad protocol) to
`Invalid URL format`. -/
def validateApiUrl (url : String) : Except String Unit :=
  let inner : Except String Unit :=
    match parseUrl url with
    | none => .error "Invalid URL"
    | some (protocol, hostname) =>
      if blockedHosts.contains (strToLower hostname) then
        .error "Cannot call localhost or internal addresses"
      else if isPrivateHost hostname then
        .error "Cannot call private networks"
      else if protocol = "http:" || protocol = "https:" then .ok ()
      else .error "Only HTTP(S) URLs allowed"
  match inner with
  | .ok _ => .ok ()
  | .error e => if strStarts e "Cannot" then .error e else .error "Invalid URL format"

/-- `ACTION_API_CALL` (lines 887–922): interpolate the URL, validate it
**before** the `fetch` (a failed validation throws out of the executor with
no effect); fetch/JSON errors are caught into `apiError`. -/
def executeActionApiCall (ora : Oracle) (config : NodeCfg) (vars : Variables) :
    Except String ExecOut :=
  let url := interpolateVariables (jsOrStr config.url "") vars
  match validateApiUrl url with
  | .error e => .error e
  | .ok _ =>
    let data :=
      match ora.fetchUrl url with
      | .success body status ok =>
        [("apiResponse", body), ("apiStatusCode", .num status), ("apiSuccess", .bool ok)]
      | .failure m => [("apiError", .str m), ("apiSuccess", .bool false)]
    .ok { data := data, effects := [Effect.fetch url] }

/-- `ACTION_EMAIL`: interpolates recipient/subject/body; a send failure is
caught into `emailSent:false`. -/
def executeActionEmail (ora : Oracle) (config : NodeCfg) (vars : Variables) : ExecOut :=
  let toAddr := interpolateVariables (jsOrStr config.to "") vars
  let subject := interpolateVariables (jsOrStr config.subject "") vars
  let body := interpolateVariables (jsString (jsOrVal config.body (.str ""))) vars
  if ora.emailSend toAddr subject body then
    { data := [("emailSent", .bool true)], effects := [Effect.email toAddr subject body] }
  else
    { data := [("emailSent", .bool false), ("emailError", .str "Failed to send email")],
      effects := [Effect.email toAddr subject body] }

/-- `ACTION_ASSIGN_HUMAN`: updates the conversation row and notifies. -/
def executeActionAssignHuman (config : NodeCfg) (conversationId : String) : ExecOut :=
  { data := [("assignedToHuman", .bool true)],
    effects := [Effect.dbUpdate ("conversation.assign " ++ jsOrStr config.userId "null"),
                Effect.sentMsg conversationId "A human agent will assist you shortly."] }

/-- `ACTION_END_CONVERSATION`: marks the conversation resolved. -/
def executeActionEndConversation (conversationId : String) : ExecOut :=
  { data := [("conversationEnded", .bool true)],
    effects := [Effect.dbUpdate ("conversation.resolve " ++ conversationId)] }

/-- `AI_RESPONSE`: AI chat completion (oracle), reply sent to the user. -/
def executeAIResponse (ora : Oracle) (config : NodeCfg) (conversationId : String)
    (vars : Variables) : ExecOut :=
  let prompt := interpolateVariables (jsOrStr config.prompt "Respond to the user") vars
  let aiMessage := ora.aiChat prompt (jsStrVar vars "lastUserMessage")
  { data := [("aiResponse", .str aiMessage)],
    effects := [Effect.sentMsg conversationId aiMessage] }

/-- `AI_SEARCH_KB`: knowledge-base search (oracle); no configured KB short-
circuits to an empty result. -/
def executeAISearchKB (ora : Oracle) (config : NodeCfg) (vars : Variables) : ExecOut :=
  match config.knowledgeBaseId with
  | none => { data := [("kbResults", .arr [])] }
  | some knowledgeBaseId =>
    let query :=
      let m := getVar vars "lastUserMessage"
      if jsTruthy m then jsString m else jsStrVar vars "query"
    let results := ora.kbSearch knowledgeBaseId query (jsOrNat config.limit 3)
    { data := [("kbResults", .arr (results.map (fun r =>
                  .obj [("content", .str r.content), ("score", .num r.score),
                        ("title", .str r.title)]))),
               ("kbContext", .str (String.intercalate "\n\n" (results.map (·.content))))] }

/-- `AI_CLASSIFY_INTENT` (intent list defaults when absent; empty reply
defaults to "general"). -/
def executeAIClassifyIntent (ora : Oracle) (config : NodeCfg) (vars : Variables) : ExecOut :=
  let text := jsStrVar vars "lastUserMessage"
  let intents := config.intents.getD ["general", "support", "sales"]
  let intent := let s := strTrim (ora.classifyIntent intents text)
                if s = "" then "general" else s
  { data := [("classifiedIntent", .str intent)] }

/-- `AI_EXTRACT_INFO`: structured extraction; a JSON parse failure is caught
to an empty object. -/
def executeAIExtractInfo (ora : Oracle) (config : NodeCfg) (vars : Variables) : ExecOut :=
  let text := jsStrVar vars "lastUserMessage"
  let fieldsToExtract := config.fields.getD ["email", "name", "phone"]
  match ora.aiExtract fieldsToExtract text with
  | some extracted => { data := [("extractedInfo", extracted)] }
  | none => { data := [("extractedInfo", .obj [])] }

/-- `AI_VALIDATE_FORMAT`: a JSON parse failure is caught to
`formatValid:false`. -/
def executeAIValidateFormat (ora : Oracle) (config : NodeCfg) (vars : Variables) : ExecOut :=
  let text := jsStrVar vars "lastUserMessage"
  let expectedFormat := jsOrStr config.format "text"
  match ora.aiValidate expectedFormat text with
  | some (valid, reason) =>
    { data := [("formatValid", .bool valid),
               ("validationReason", match reason with | some r => .str r | none => .undefined)] }
  | none => { data := [("formatValid", .bool false)] }

/-! ## Node dispatch (`executeNode`, lines 317–415) -/

/-- The case labels of the persisted engine's `switch (node.type)`. -/
def knownNodeTypes : List String :=
  ["TRIGGER_WAIT", "TRIGGER_MESSAGE", "TRIGGER_INTENT", "TRIGGER_USER_INPUT",
   "CONDITION_KEYWORD", "CONDITION_REGEX", "CONDITION_EQUALS", "CONDITION_CONTAINS",
   "CONDITION_VARIABLE", "CONDITION_SENTIMENT", "CONDITION_TIME",
   "ACTION_MESSAGE", "ACTION_WAIT_FOR_INPUT", "ACTION_VALIDATE_INPUT",
   "ACTION_SET_VARIABLE", "ACTION_API_CALL", "ACTION_EMAIL", "ACTION_ASSIGN_HUMAN",
   "ACTION_END_CONVERSATION",
   "AI_RESPONSE", "AI_SEARCH_KB", "AI_CLASSIFY_INTENT", "AI_EXTRACT_INFO",
   "AI_VALIDATE_FORMAT"]

/-- `executeNode(node, context)`: string-keyed dispatch over `node.type`.
The `default` case merely logs a warning and returns `{}` — the node is
skipped and execution continues. -/
def executeNode (ora : Oracle) (node : Node) (ctx : Ctx) : Except String ExecOut :=
  let config := node.config
  match node.type with
  | "TRIGGER_WAIT" => .ok (executeTriggerWait config ctx)
  | "TRIGGER_MESSAGE" => .ok (executeTriggerMessage config ctx.variables)
  | "TRIGGER_INTENT" => .ok (executeTriggerIntent ora config ctx.variables)
  | "TRIGGER_USER_INPUT" => .ok (executeTriggerUserInput config ctx)
  | "CONDITION_KEYWORD" => .ok (executeConditionKeyword config ctx.variables)
  | "CONDITION_REGEX" => .ok (executeConditionRegex ora config ctx.variables)
  | "CONDITION_EQUALS" => .ok (executeConditionEquals config ctx.variables)
  | "CONDITION_CONTAINS" => .ok (executeConditionContains config ctx.variables)
  | "CONDITION_VARIABLE" => .ok (executeConditionVariable config ctx.variables)
  | "CONDITION_SENTIMENT" => .ok (executeConditionSentiment ora config ctx.variables)
  | "CONDITION_TIME" => .ok (executeConditionTime ora config)
  | "ACTION_MESSAGE" => .ok (executeActionMessage config ctx)
  | "ACTION_WAIT_FOR_INPUT" => .ok (executeActionWaitForInput config ctx)
  | "ACTION_VALIDATE_INPUT" => executeActionValidateInput ora config ctx.variables
  | "ACTION_SET_VARIABLE" => .ok (executeActionSetVariable config ctx.variables)
  | "ACTION_API_CALL" => executeActionApiCall ora config ctx.variables
  | "ACTION_EMAIL" => .ok (executeActionEmail ora config ctx.variables)
  | "ACTION_ASSIGN_HUMAN" => .ok (executeActionAssignHuman config ctx.conversationId)
  | "ACTION_END_CONVERSATION" => .ok (executeActionEndConversation ctx.conversationId)
  | "AI_RESPONSE" => .ok (executeAIResponse ora config ctx.conversationId ctx.variables)
  | "AI_SEARCH_KB" => .ok (executeAISearchKB ora config ctx.variables)
  | "AI_CLASSIFY_INTENT" => .ok (executeAIClassifyIntent ora config ctx.variables)
  | "AI_EXTRACT_INFO" => .ok (executeAIExtractInfo ora config ctx.variables)
  | "AI_VALIDATE_FORMAT" => .ok (executeAIValidateFormat ora config ctx.variables)
  | _ => .ok {}

/-- Apply an executor's context mutations and merge its result object into
the variables (`context.variables = {...context.variables, ...result}`).
Executors only ever set `waitingForInput` to `true`, never clear it. -/
def applyExecOut (ctx : Ctx) (out : ExecOut) : Ctx :=
  { ctx with
    waitingForInput := ctx.waitingForInput || out.setWaiting,
    expectedInputType := match out.setInputType with
      | some t => some t
      | none => ctx.expectedInputType,
    «variables» := mergeVars ctx.variables out.data }

/-! ## The burst interpreter (`processNextNode`, lines 253–312) -/

/-- Outcome of one burst. `fuelOut` means the model ran out of fuel while
the real (unbounded) recursion would still be running. -/
inductive RunResult where
  | completed
  | suspended
  | failed (error : String)
  | fuelOut
deriving DecidableEq

/-- `processNextNode(context)`, one recursive call per unit of fuel.
Returns the updated durable state, the list of node ids dispatched (in
order), and the outcome.  A thrown executor error propagates (`failed`);
the caller's `.catch` is modelled in `runBurst`. -/
def processNextNode (ora : Oracle) : Nat → Ctx → EngineState → EngineState × List String × RunResult
  | 0, _, st => (st, [], .fuelOut)
  | fuel + 1, context, st =>
    match context.currentNodeId with
    | none =>
      (deleteContext (setExecStatus st context.executionId .COMPLETED) context.conversationId,
       [], .completed)
    | some currentNodeId =>
      match context.workflow.nodes.find? (fun n => n.id == currentNodeId) with
      | none => (st, [], .failed ("Node " ++ currentNodeId ++ " not found"))
      | some node =>
        match executeNode ora node context with
        | .error e => (st, [currentNodeId], .failed e)
        | .ok out =>
          let st := { st with effects := st.effects ++ out.effects }
          let context := applyExecOut context out
          if context.waitingForInput then
            (saveContext st context, [currentNodeId], .suspended)
          else
            match findNextNode node context with
            | none =>
              (deleteContext (setExecStatus st context.executionId .COMPLETED)
                 context.conversationId,
               [currentNodeId], .completed)
            | some nextNodeId =>
              let context := { context with currentNodeId := some nextNodeId }
              let st := saveContext st context
              let res := processNextNode ora fuel context st
              (res.1, currentNodeId :: res.2.1, res.2.2)

/-- A burst as launched by the engine: `processNextNode(...).catch(err =>
markExecutionFailed(executionId, err.message))` — the failure path only
flips the execution row to FAILED; it does **not** delete the context. -/
def runBurst (ora : Oracle) (fuel : Nat) (context : Ctx) (st : EngineState) :
    EngineState × List String × RunResult :=
  let res := processNextNode ora fuel context st
  match res.2.2 with
  | .failed e => (setExecStatus res.1 context.executionId (.FAILED e), res.2.1, .failed e)
  | _ => res

/-! ## Inbound message handling (lines 172–247, 1090–1121) -/

/-- Result of `validateInput`. -/
structure ValidationOut where
  valid : Bool
  errorMessage : Option String := none
  extractedData : JsonVal := .undefined

/-- `validateInput(input, validation)` (lines 1090–1121).  A missing regex
pattern behaves like JS `new RegExp(undefined)` (matches everything,
written `(?:)` here).  The `new RegExp(pattern)` call at line 1095 is
**not** wrapped in a `try`: a syntactically invalid pattern (oracle
`none`) throws, modelled as `.error` — the exception propagates out of
`handleMessageInWorkflow` unhandled. -/
def validateInput (ora : Oracle) (input : String) (validation : InputValidation) :
    Except String ValidationOut :=
  match validation.type with
  | some "regex" =>
    match ora.regexTest (validation.pattern.getD "(?:)") "" input with
    | some b =>
      .ok { valid := b,
            errorMessage := some (jsOrStr validation.errorMessage "Invalid format"),
            extractedData := .str input }
    | none => .error "Invalid regular expression"
  | some "email" =>
    .ok { valid := ora.emailTest input,
          errorMessage := some
            (jsOrStr validation.errorMessage "Please enter a valid email address"),
          extractedData := .str input }
  | some "phone" =>
    .ok { valid := ora.phoneTest input,
          errorMessage := some
            (jsOrStr validation.errorMessage "Please enter a valid phone number"),
          extractedData := .str input }
  | _ => .ok { valid := true, extractedData := .str input }

/-- What `handleMessageInWorkflow` returns to the chat service: `null`
(`reply = none`, the workflow is not handling the message) or the
`{shouldRespond, response?, continueWorkflow}` object. -/
structure Reply where
  shouldRespond : Bool
  response : Option String := none
  continueWorkflow : Bool

/-- Observable outcome of `handleMessageInWorkflow`: the returned value,
the durable state afterwards, the nodes dispatched by the (async) resumed
burst, and — for verification — the context the burst was started with. -/
structure HandleOut where
  reply : Option Reply
  st : EngineState
  dispatches : List String
  burstCtx : Option Ctx
  /-- An exception escaping the function unhandled (the `withLock` wrapper
  releases the lock and rethrows); when set, `reply` is meaningless — the
  caller receives no return value at all. -/
  thrown : Option String := none

/-- The resume path: clear the waiting flags, persist, then continue the
workflow (the async `processNextNode(...).catch(markExecutionFailed)`). -/
def resumeContext (ora : Oracle) (fuel : Nat) (context : Ctx) (st : EngineState) : HandleOut :=
  let context :=
    { context with
      waitingForInput := false
      expectedInputType := none
      expectedInputValidation := none }
  let st := saveContext st context
  let res := runBurst ora fuel context st
  { reply := some { shouldRespond := false, continueWorkflow := true },
    st := res.1, dispatches := res.2.1, burstCtx := some context }

/-- `handleMessageInWorkflow(conversationId, message, metadata)`
(lines 172–247).  The Redis lock around the body serialises bursts per
conversation; the model is that serial execution.  No context, or a context
not waiting for input, returns `null` untouched.  A failing validation
replies with the validation error and changes nothing durable; a throwing
validation (invalid regex pattern) escapes unhandled (`thrown`), also
changing nothing durable. -/
def handleMessageInWorkflow (ora : Oracle) (fuel : Nat) (conversationId message : String)
    (messageMetadata : JsonVal) (st : EngineState) : HandleOut :=
  match getContext st conversationId with
  | none => { reply := none, st := st, dispatches := [], burstCtx := none }
  | some context =>
    if !context.waitingForInput then
      { reply := none, st := st, dispatches := [], burstCtx := none }
    else
      let context :=
        { context with
          «variables» :=
            setVar (setVar context.variables "lastUserMessage" (.str message))
              "lastMessageMetadata" messageMetadata }
      match context.expectedInputValidation with
      | some validation =>
        match validateInput ora message validation with
        | .error e =>
          { reply := none, st := st, dispatches := [], burstCtx := none, thrown := some e }
        | .ok validationRes =>
          if !validationRes.valid then
            { reply := some
                { shouldRespond := true
                  response := some (jsOrStr validationRes.errorMessage
                    "Invalid input. Please try again.")
                  continueWorkflow := false }
              st := st
              dispatches := []
              burstCtx := none }
          else
            let context :=
              { context with
                «variables» :=
                  setVar context.variables "validatedInput" validationRes.extractedData }
            resumeContext ora fuel context st
      | none => resumeContext ora fuel context st

/-- `getWorkflowState(conversationId)` (lines 1189–1191). -/
def getWorkflowState (st : EngineState) (conversationId : String) : Option Ctx :=
  getContext st conversationId

/-! ## `WorkflowLoopDetector` (`lib/workflowLoopDetector`)

The loop/runaway guard class.  Its only mutating method `visitNode` throws a
`WorkflowLoopError` when a limit is exceeded.  Time is an explicit `now`
parameter (the class reads `Date.now()`).  Note: nothing in either engine
constructs or calls this class — see claim C1. -/

structure LoopDetector where
  visits : List (String × Nat) := []
  maxVisitsPerNode : Nat := 10
  maxTotalNodes : Nat := 100
  startTime : Nat := 0
  maxExecutionTime : Nat := 300000

/-- `WorkflowLoopDetector.visitNode(nodeId)` (part of the class above):
time limit, then distinct-node limit, then the per-node visit count —
incremented on every visit and checked (strictly) against
`maxVisitsPerNode` after incrementing. -/
def LoopDetector.visitNode (d : LoopDetector) (now : Nat) (nodeId : String) :
    Except String LoopDetector :=
  if now - d.startTime > d.maxExecutionTime then
    .error ("Workflow execution timeout: exceeded " ++ toString d.maxExecutionTime ++ "ms")
  else if d.visits.length ≥ d.maxTotalNodes then
    .error ("Workflow node limit exceeded: visited " ++ toString d.visits.length ++ " nodes")
  else
    match List.lookup nodeId d.visits with
    | some count =>
      let count := count + 1
      if count > d.maxVisitsPerNode then
        .error ("Infinite loop detected: node \"" ++ nodeId ++ "\" visited "
          ++ toString count ++ " times")
      else
        .ok { d with visits :=
          (nodeId, count) :: d.visits.filter (fun p => p.1 != nodeId) }
    | none =>
      .ok { d with visits := (nodeId, 1) :: d.visits }

/-- Feed a dispatch trace to a detector (all visits at the start instant;
the time limit is not what claim C1 exercises). -/
def runDetector (d : LoopDetector) : List String → Except String LoopDetector
  | [] => .ok d
  | nodeId :: rest =>
    match d.visitNode d.startTime nodeId with
    | .ok d' => runDetector d' rest
    | .error e => .error e

/-! ## The synchronous engine (`workflow.service.ts`)

Only the parts the claims are about: the per-node retry/timeout loop of its
`executeNode` (lines 736–823) and the closed dispatch of
`executeNodeByType` (lines 880–953).  The executor bodies live in
`workflow.executors.ts` and are abstracted as a parameter: the retry loop
is verified for every executor behaviour. -/

/-- `NodeExecutionResult` of the synchronous engine (`workflow.types`). -/
structure SyncResult where
  success : Bool
  data : Variables := []
  error : Option String := none
  shouldContinue : Bool

/-- How a retried node execution ends: the loop finishes with a result
(success, or the `continueOnError` synthetic failure), or rethrows. -/
inductive SyncOutcome where
  | finished (r : SyncResult)
  | thrown (e : String)

/-- What the retry loop did: total number of attempts, the backoff delays
slept between consecutive attempts (ms, in order), and the outcome. -/
structure RetryTrace where
  attempts : Nat
  delays : List Nat
  outcome : SyncOutcome

/-- The `while (attempts < maxRetries)` body of the synchronous engine's
`executeNode`: `attempt` is the 1-based number of the attempt about to run,
`remaining` the number of loop iterations still allowed.  On a failure that
is not the last attempt the loop sleeps `1000 * attempts` ms (the source
comments it as exponential backoff; it is linear, hence non-decreasing).
`attemptExec n` is the outcome of the `n`-th `executeNodeByType` call, with
a configured `Promise.race` timeout modelled as just another thrown error.
The `remaining = 0` base case is unreachable for the `maxRetries ≥ 1`
values the source can produce. -/
def syncAttempts (continueOnError : Bool) (attemptExec : Nat → Except String SyncResult) :
    Nat → Nat → RetryTrace
  | attempt, 0 => { attempts := attempt - 1, delays := [], outcome := .thrown "unreachable" }
  | attempt, remaining + 1 =>
    match attemptExec attempt with
    | .ok r => { attempts := attempt, delays := [], outcome := .finished r }
    | .error e =>
      if remaining = 0 then
        if continueOnError then
          { attempts := attempt, delays := [],
            outcome := .finished { success := false, error := some e, shouldContinue := true } }
        else
          { attempts := attempt, delays := [], outcome := .thrown e }
      else
        let t := syncAttempts continueOnError attemptExec (attempt + 1) remaining
        { t with delays := 1000 * attempt :: t.delays }

/-- `maxRetries` as computed by the source:
`config.retryOnError ? (config.maxRetries || 3) : 1`. -/
def syncMaxRetries (config : NodeCfg) : Nat :=
  if config.retryOnError then jsOrNat config.maxRetries 3 else 1

/-- The whole retry phase of the synchronous `executeNode`. -/
def syncNodeExec (config : NodeCfg) (attemptExec : Nat → Except String SyncResult) :
    RetryTrace :=
  syncAttempts config.continueOnError attemptExec 1 (syncMaxRetries config)

/-- The case labels of `executeNodeByType`'s `switch` (lines 886–949). -/
def syncKnownNodeTypes : List String :=
  ["TRIGGER_WAIT", "TRIGGER_INACTIVITY",
   "CONDITION_KEYWORD", "CONDITION_SENTIMENT", "CONDITION_TIME", "CONDITION_COMPARE",
   "ACTION_MESSAGE", "ACTION_EMAIL", "ACTION_API_CALL", "ACTION_ASSIGN_HUMAN",
   "ACTION_VARIABLE_SET", "ACTION_DELAY",
   "AI_RESPONSE", "AI_SEARCH_KB", "AI_CLASSIFY_INTENT", "AI_SUMMARIZE",
   "FLOW_LOOP", "DATA_TRANSFORM", "DATA_VALIDATE"]

/-- `executeNodeByType(node, context)` of the synchronous engine: dispatch
to the named executor of `workflow.executors.ts` (abstracted by `executors`),
and `default: throw new WorkflowError("Unknown node type: " + node.type)`. -/
def executeNodeByType (executors : String → NodeCfg → Except String SyncResult)
    (node : Node) : Except String SyncResult :=
  let config := node.config
  match node.type with
  | "TRIGGER_WAIT" => executors "executeTriggerWait" config
  | "TRIGGER_INACTIVITY" => executors "executeTriggerInactivity" config
  | "CONDITION_KEYWORD" => executors "executeConditionKeyword" config
  | "CONDITION_SENTIMENT" => executors "executeConditionSentiment" config
  | "CONDITION_TIME" => executors "executeConditionTime" config
  | "CONDITION_COMPARE" => executors "executeConditionCompare" config
  | "ACTION_MESSAGE" => executors "executeActionMessage" config
  | "ACTION_EMAIL" => executors "executeActionEmail" config
  | "ACTION_API_CALL" => executors "executeActionApiCall" config
  | "ACTION_ASSIGN_HUMAN" => executors "executeActionAssignHuman" config
  | "ACTION_VARIABLE_SET" => executors "executeActionVariableSet" config
  | "ACTION_DELAY" => executors "executeActionDelay" config
  | "AI_RESPONSE" => executors "executeAIResponse" config
  | "AI_SEARCH_KB" => executors "executeAISearchKB" config
  | "AI_CLASSIFY_INTENT" => executors "executeAIClassifyIntent" config
  | "AI_SUMMARIZE" => executors "executeAISummarize" config
  | "FLOW_LOOP" => executors "executeFlowLoop" config
  | "DATA_TRANSFORM" => executors "executeDataTransform" config
  | "DATA_VALIDATE" => executors "executeDataValidate" config
  | _ => .error ("Unknown node type: " ++ node.type)

/-! ## Concrete material shared by witnesses and counterexamples -/

/-- A concrete oracle (all capability defaults): the regex engine matches
nothing, e-mail/phone validation rejects everything, `fetch` fails with
`"fetch failed"`, AI replies are empty. -/
def oracleDemo : Oracle := {}

/-- Concrete routing scenario for the C4 witness: two guarded edges, the
first guard false, the second true. -/
def routerNode : Node := { id := "R", type := "CONDITION_EQUALS" }

def routerCtx : Ctx :=
  { conversationId := "convR", executionId := "eR", currentNodeId := some "R"
    «variables» := [("conditionMet", .bool true)]
    workflow :=
      { nodes := [routerNode]
        edges :=
          [{ id := "e1", sourceNodeId := "R", targetNodeId := "T1"
             condition := some ⟨some "conditionMet", some "equals", .bool false⟩ },
           { id := "e2", sourceNodeId := "R", targetNodeId := "T2"
             condition := some ⟨some "conditionMet", some "equals", .bool true⟩ },
           { id := "e3", sourceNodeId := "R", targetNodeId := "T3" }] } }

/-- A run that fails (the current node id is dangling): used to refute the
FAILED half of C2 as stated. -/
def ghostCtx : Ctx :=
  { conversationId := "convGhost", executionId := "execGhost"
    currentNodeId := some "ghost"
    workflow := { nodes := [], edges := [] } }

/-- The store right after initialization persisted `ghostCtx`. -/
def ghostSt : EngineState := saveContext {} ghostCtx

/-- A one-node workflow that runs to completion. -/
def doneCtx : Ctx :=
  { conversationId := "convDone", executionId := "execDone"
    currentNodeId := some "S"
    workflow := { nodes := [{ id := "S", type := "ACTION_SET_VARIABLE" }], edges := [] } }

/-- A workflow whose entry node has a type no engine branch recognizes,
followed by an ordinary node. -/
def unknownCtx : Ctx :=
  { conversationId := "convU", executionId := "execU"
    currentNodeId := some "U"
    workflow :=
      { nodes := [{ id := "U", type := "UNKNOWN_TYPE" },
                  { id := "V", type := "ACTION_SET_VARIABLE" }]
        edges := [{ sourceNodeId := "U", targetNodeId := "V" }] } }

/-- The spec's 2-node cycle `A→B→A` with no exit condition: both edges are
unconditional, both nodes are plain variable-set actions. -/
def cycleCtx : Ctx :=
  { conversationId := "convCycle", executionId := "execCycle"
    currentNodeId := some "A"
    workflow :=
      { nodes :=
          [{ id := "A", type := "ACTION_SET_VARIABLE"
             config := { variableName := some "x", value := some (.str "1") } },
           { id := "B", type := "ACTION_SET_VARIABLE"
             config := { variableName := some "y", value := some (.str "2") } }]
        edges := [{ sourceNodeId := "A", targetNodeId := "B" },
                  { sourceNodeId := "B", targetNodeId := "A" }] } }

/-- A workflow whose entry node waits for user input. -/
def waitNode : Node :=
  { id := "W", type := "TRIGGER_USER_INPUT", config := { prompt := some "Your email?" } }

def waitCtx : Ctx :=
  { conversationId := "convW", executionId := "execW"
    currentNodeId := some "W"
    workflow := { nodes := [waitNode], edges := [] } }

def alwaysFailExec : Nat → Except String SyncResult := fun _ => .error "boom"

def retryConfig : NodeCfg := { retryOnError := true, maxRetries := some 3 }

/-- A suspended context expecting a validated e-mail address. -/
def suspCtx : Ctx :=
  { conversationId := "convS", executionId := "execS"
    currentNodeId := some "W"
    waitingForInput := true
    expectedInputValidation := some
      { type := some "email", errorMessage := some "Please provide a valid email" }
    workflow := { nodes := [waitNode], edges := [] } }

/-- Spec-side definition (the refinement target of "loopback"): an IPv4
hostname in the loopback block `127.0.0.0/8`, in dotted-decimal form. -/
def isLoopbackIPv4Host (hostname : String) : Bool :=
  strStarts hostname "127."

/-- The spec scenario's API-call node. -/
def ssrfConfig : NodeCfg := { url := some "http://127.0.0.1/admin" }

def ssrfCtx : Ctx :=
  { conversationId := "convP", executionId := "execP"
    currentNodeId := some "P"
    workflow :=
      { nodes := [{ id := "P", type := "ACTION_API_CALL", config := ssrfConfig }]
        edges := [] } }

/-! ## Helper lemmas about the store -/

theorem lookup_filter_self {α : Type} (k : String) :
    ∀ l : List (String × α), List.lookup k (l.filter (fun p => p.1 != k)) = none := by
  intro l
  induction l with
  | nil => rfl
  | cons p rest ih =>
    by_cases h : p.1 = k
    · have hb : (p.1 != k) = false := by simp [bne, h]
      simpa [List.filter_cons, hb] using ih
    · have hb : (p.1 != k) = true := by simp [bne, h]
      have hk : (k == p.1) = false := by simp [Ne.symm h]
      simp [List.filter_cons, hb, List.lookup, hk, ih]

theorem lookup_filter_other {α : Type} (k k' : String) (h : k ≠ k') :
    ∀ l : List (String × α),
      List.lookup k (l.filter (fun p => p.1 != k')) = List.lookup k l := by
  intro l
  induction l with
  | nil => rfl
  | cons p rest ih =>
    by_cases hp : p.1 = k'
    · have hb : (p.1 != k') = false := by simp [bne, hp]
      have hk : (k == p.1) = false := by simp [hp, h]
      simp [List.filter_cons, hb, List.lookup, hk, ih]
    · have hb : (p.1 != k') = true := by simp [bne, hp]
      simp [List.filter_cons, hb, List.lookup, ih]

theorem getContext_save (st : EngineState) (c : Ctx) (k : String) :
    getContext (saveContext st c) k =
      if k = c.conversationId then some c else getContext st k := by
  by_cases h : k = c.conversationId
  · simp [getContext, saveContext, List.lookup, h]
  · have hk : (k == c.conversationId) = false := by simp [h]
    simp [getContext, saveContext, List.lookup, hk, h,
      lookup_filter_other k c.conversationId h]

theorem getContext_delete_self (st : EngineState) (k : String) :
    getContext (deleteContext st k) k = none := by
  simp [getContext, deleteContext, lookup_filter_self]

/-! ## Claim C4 — edge router takes the first satisfied edge -/

theorem findNextAux_eq_find (vars : Variables) :
    ∀ edges : List Edge,
      findNextAux vars edges = (edges.find? (edgeTaken vars)).map Edge.targetNodeId := by
  intro edges
  induction edges with
  | nil => rfl
  | cons e rest ih =>
    cases hc : e.condition with
    | none => simp [findNextAux, List.find?, edgeTaken, hc]
    | some c =>
      by_cases hev : evaluateCondition c vars
      · simp [findNextAux, List.find?, edgeTaken, hc, hev]
      · simp [findNextAux, List.find?, edgeTaken, hc, hev, ih]

/-- C4: for every node and every variable assignment, the router scans the
node's outgoing edges in definition order and returns the target of the
first edge whose condition evaluates true or that has no condition (the
`Option` result type itself rules out fan-out); it returns no successor
exactly when the node has no outgoing edges or no edge is satisfied. -/
theorem C4_edge_router_first_match (currentNode : Node) (ctx : Ctx) :
    (findNextNode currentNode ctx =
      ((ctx.workflow.edges.filter (fun e => e.sourceNodeId == currentNode.id)).find?
        (edgeTaken ctx.variables)).map Edge.targetNodeId)
    ∧ (findNextNode currentNode ctx = none ↔
        ∀ e ∈ ctx.workflow.edges.filter (fun e => e.sourceNodeId == currentNode.id),
          edgeTaken ctx.variables e = false) := by
  constructor
  · simpa [findNextNode] using
      findNextAux_eq_find ctx.variables
        (ctx.workflow.edges.filter (fun e => e.sourceNodeId == currentNode.id))
  · rw [show findNextNode currentNode ctx = _ from by
      simpa [findNextNode] using
        findNextAux_eq_find ctx.variables
          (ctx.workflow.edges.filter (fun e => e.sourceNodeId == currentNode.id))]
    simp [Option.map_eq_none', List.find?_eq_none]

/-- Witness for C4 at a concrete graph: the second edge is the first whose
guard holds, so its target is chosen. -/
theorem C4_edge_router_first_match_witness : findNextNode routerNode routerCtx = some "T2" := by
  rw [(C4_edge_router_first_match routerNode routerCtx).1]
  rfl

/-! ## Claim C10 — malformed or unrecognized guards default to true -/

/-- C10: the persisted engine's `evaluateCondition` returns `true` whenever
`field` or `operator` is missing (or empty), and whenever the operator is
not one of the implemented operator names — a malformed or unrecognized
guard behaves as an unconditional edge.  (The function is total: no guard
evaluation can throw during routing.) -/
theorem C10_malformed_condition_defaults_true (condition : Condition) (vars : Variables) :
    ((jsFalsyStr condition.field = true ∨ jsFalsyStr condition.operator = true) →
      evaluateCondition condition vars = true)
    ∧ (∀ op, condition.operator = some op → op ∉ implementedOperators →
        evaluateCondition condition vars = true) := by
  constructor
  · intro h
    rcases h with h | h <;> simp [evaluateCondition, h]
  · intro op hop hnotin
    unfold evaluateCondition
    by_cases hf : jsFalsyStr condition.field
    · simp [hf]
    · by_cases ho : jsFalsyStr condition.operator
      · simp [ho]
      · simp only [hf, ho, Bool.or_self, Bool.false_eq_true, if_false, hop, Option.getD_some]
        split <;> simp_all [implementedOperators]

/-- Witness for C10: the spec-listed operator `matches` is not implemented
by the persisted engine, so such a guard is taken unconditionally; so is a
guard with no field/operator at all. -/
theorem C10_malformed_condition_defaults_true_witness :
    evaluateCondition ⟨some "x", some "matches", .str "y"⟩ [("x", .str "nope")] = true
    ∧ evaluateCondition ⟨none, none, .null⟩ [("a", .num 1)] = true :=
  ⟨(C10_malformed_condition_defaults_true ⟨some "x", some "matches", .str "y"⟩
      [("x", .str "nope")]).2 "matches" rfl (by decide),
   (C10_malformed_condition_defaults_true ⟨none, none, .null⟩ [("a", .num 1)]).1
      (Or.inl rfl)⟩

/-! ## Claim C2 — terminal states and the persisted context -/

theorem processNextNode_completed_deletes (ora : Oracle) :
    ∀ (fuel : Nat) (ctx : Ctx) (st : EngineState),
      (processNextNode ora fuel ctx st).2.2 = RunResult.completed →
      getContext (processNextNode ora fuel ctx st).1 ctx.conversationId = none := by
  intro fuel
  induction fuel with
  | zero => intro ctx st h; simp [processNextNode] at h
  | succ n ih =>
    intro ctx st h
    simp only [processNextNode] at h ⊢
    cases hcur : ctx.currentNodeId with
    | none =>
      dsimp only
      exact getContext_delete_self _ _
    | some nid =>
      rw [hcur] at h
      dsimp only at h ⊢
      cases hfind : ctx.workflow.nodes.find? (fun n => n.id == nid) with
      | none => rw [hfind] at h; dsimp only at h; simp at h
      | some node =>
        rw [hfind] at h
        dsimp only at h ⊢
        cases hexec : executeNode ora node ctx with
        | error e2 => rw [hexec] at h; dsimp only at h; simp at h
        | ok out =>
          rw [hexec] at h
          dsimp only at h ⊢
          by_cases hw : (applyExecOut ctx out).waitingForInput
          · rw [if_pos hw] at h; dsimp only at h; simp at h
          · rw [if_neg hw] at h ⊢
            cases hnext : findNextNode node (applyExecOut ctx out) with
            | none =>
              dsimp only
              exact getContext_delete_self _ _
            | some nxt =>
              rw [hnext] at h
              dsimp only at h ⊢
              exact ih { applyExecOut ctx out with currentNodeId := some nxt }
                (saveContext { st with effects := st.effects ++ out.effects }
                  { applyExecOut ctx out with currentNodeId := some nxt }) h

theorem processNextNode_failed_keeps (ora : Oracle) :
    ∀ (fuel : Nat) (ctx : Ctx) (st : EngineState) (e : String),
      (getContext st ctx.conversationId).isSome = true →
      (processNextNode ora fuel ctx st).2.2 = RunResult.failed e →
      (getContext (processNextNode ora fuel ctx st).1 ctx.conversationId).isSome = true := by
  intro fuel
  induction fuel with
  | zero => intro ctx st e _ h; simp [processNextNode] at h
  | succ n ih =>
    intro ctx st e hsome h
    simp only [processNextNode] at h ⊢
    cases hcur : ctx.currentNodeId with
    | none => rw [hcur] at h; dsimp only at h; simp at h
    | some nid =>
      rw [hcur] at h
      dsimp only at h ⊢
      cases hfind : ctx.workflow.nodes.find? (fun n => n.id == nid) with
      | none =>
        dsimp only
        exact hsome
      | some node =>
        rw [hfind] at h
        dsimp only at h ⊢
        cases hexec : executeNode ora node ctx with
        | error e2 =>
          dsimp only
          exact hsome
        | ok out =>
          rw [hexec] at h
          dsimp only at h ⊢
          by_cases hw : (applyExecOut ctx out).waitingForInput
          · rw [if_pos hw] at h; dsimp only at h; simp at h
          · rw [if_neg hw] at h ⊢
            cases hnext : findNextNode node (applyExecOut ctx out) with
            | none => rw [hnext] at h; dsimp only at h; simp at h
            | some nxt =>
              rw [hnext] at h
              dsimp only at h ⊢
              have hsome2 :
                  (getContext
                    (saveContext { st with effects := st.effects ++ out.effects }
                      { applyExecOut ctx out with currentNodeId := some nxt })
                    ({ applyExecOut ctx out with currentNodeId := some nxt } : Ctx).conversationId).isSome
                    = true := by
                rw [getContext_save]
                simp
              exact ih { applyExecOut ctx out with currentNodeId := some nxt }
                (saveContext { st with effects := st.effects ++ out.effects }
                  { applyExecOut ctx out with currentNodeId := some nxt }) e hsome2 h

/-- C2 (amended): when a burst ends COMPLETED the persisted context has
been deleted, so `getState` returns none; but when a burst ends FAILED the
context is **not** deleted — `markExecutionFailed` only updates the
execution row — so a conversation whose context was persisted still has it
after the failure. -/
theorem C2_terminal_state_context (ora : Oracle) (fuel : Nat) (ctx : Ctx) (st : EngineState) :
    ((runBurst ora fuel ctx st).2.2 = RunResult.completed →
      getWorkflowState (runBurst ora fuel ctx st).1 ctx.conversationId = none)
    ∧ (∀ e, (getWorkflowState st ctx.conversationId).isSome = true →
        (runBurst ora fuel ctx st).2.2 = RunResult.failed e →
        (getWorkflowState (runBurst ora fuel ctx st).1 ctx.conversationId).isSome = true) := by
  constructor
  · intro h
    unfold runBurst at h ⊢
    rcases hp : processNextNode ora fuel ctx st with ⟨st1, ds1, r1⟩
    rw [hp] at h
    dsimp only at h ⊢
    cases r1 with
    | failed e => simp at h
    | completed =>
      have := processNextNode_completed_deletes ora fuel ctx st
      rw [hp] at this
      exact this rfl
    | suspended => simp at h
    | fuelOut => simp at h
  · intro e hsome h
    unfold runBurst at h ⊢
    rcases hp : processNextNode ora fuel ctx st with ⟨st1, ds1, r1⟩
    rw [hp] at h
    dsimp only at h ⊢
    cases r1 with
    | failed e' =>
      have := processNextNode_failed_keeps ora fuel ctx st e' hsome
      rw [hp] at this
      exact this rfl
    | completed => simp at h
    | suspended => simp at h
    | fuelOut => simp at h

/-- Counterexample to C2 as stated: this burst ends FAILED (the execution
row is marked FAILED), yet `getState` still returns the stale context —
the FAILED path never deletes it. -/
theorem C2_failed_keeps_context_counterexample :
    (runBurst oracleDemo 5 ghostCtx ghostSt).2.2 = RunResult.failed "Node ghost not found"
    ∧ List.lookup "execGhost" (runBurst oracleDemo 5 ghostCtx ghostSt).1.executions
        = some (ExecStatus.FAILED "Node ghost not found")
    ∧ (getWorkflowState (runBurst oracleDemo 5 ghostCtx ghostSt).1 "convGhost").isSome = true :=
  ⟨rfl, rfl, rfl⟩

/-- Witness for C2 (amended), both halves at concrete runs: a completed run
deletes the context; a failed run keeps it. -/
theorem C2_terminal_state_context_witness :
    getWorkflowState (runBurst oracleDemo 3 doneCtx (saveContext {} doneCtx)).1 "convDone" = none
    ∧ (getWorkflowState (runBurst oracleDemo 5 ghostCtx ghostSt).1 "convGhost").isSome = true :=
  ⟨(C2_terminal_state_context oracleDemo 3 doneCtx (saveContext {} doneCtx)).1 rfl,
   (C2_terminal_state_context oracleDemo 5 ghostCtx ghostSt).2
     "Node ghost not found" rfl rfl⟩

/-! ## Claim C3 — unknown node type -/

/-- Counterexample to C3 as stated: in the persisted engine a node of
unrecognized type is **not** fatal — the run completes, the unknown node is
silently skipped (empty result) and execution continues to the next node. -/
theorem C3_unknown_node_type_counterexample :
    (runBurst oracleDemo 5 unknownCtx (saveContext {} unknownCtx)).2.2 = RunResult.completed
    ∧ (runBurst oracleDemo 5 unknownCtx (saveContext {} unknownCtx)).2.1 = ["U", "V"]
    ∧ List.lookup "execU" (runBurst oracleDemo 5 unknownCtx (saveContext {} unknownCtx)).1.executions
        = some ExecStatus.COMPLETED :=
  ⟨rfl, rfl, rfl⟩

/-- C3 (amended): in the persisted engine, dispatching a node whose type is
outside the closed set of case labels returns an empty result (`{}`) with
no context mutation and no effect — the node is silently skipped and the
run continues; it is the synchronous engine's `executeNodeByType` that
makes an unknown node type fatal by throwing a definition error. -/
theorem C3_unknown_node_type_dispatch :
    (∀ (ora : Oracle) (node : Node) (ctx : Ctx), node.type ∉ knownNodeTypes →
      executeNode ora node ctx = .ok {})
    ∧ (∀ (executors : String → NodeCfg → Except String SyncResult) (node : Node),
        node.type ∉ syncKnownNodeTypes →
        executeNodeByType executors node = .error ("Unknown node type: " ++ node.type)) := by
  constructor
  · intro ora node ctx h
    unfold executeNode
    split <;> simp_all [knownNodeTypes]
  · intro executors node h
    unfold executeNodeByType
    split <;> simp_all [syncKnownNodeTypes]

/-- Witness for C3 (amended) at the concrete unknown type. -/
theorem C3_unknown_node_type_dispatch_witness :
    executeNode oracleDemo { id := "U", type := "UNKNOWN_TYPE" } unknownCtx = .ok {}
    ∧ executeNodeByType (fun _ _ => .ok { success := true, shouldContinue := true })
        { id := "U", type := "UNKNOWN_TYPE" } = .error "Unknown node type: UNKNOWN_TYPE" :=
  ⟨C3_unknown_node_type_dispatch.1 oracleDemo { id := "U", type := "UNKNOWN_TYPE" }
     unknownCtx (by decide),
   C3_unknown_node_type_dispatch.2 (fun _ _ => .ok { success := true, shouldContinue := true })
     { id := "U", type := "UNKNOWN_TYPE" } (by decide)⟩

/-! ## Claim C1 — loop guard -/

/-- C1: the engine has **no** working loop guard.  Running the 2-node cycle
for 30 dispatches, node `A` is dispatched 15 times — beyond any
`maxVisitsPerNode = 10` bound — and the burst never aborts: it is still
running when the fuel ends (the real recursion never terminates), and no
runaway (or any) error is ever produced.  By contrast, feeding the very
same dispatch trace to the `WorkflowLoopDetector` class (which no engine
code ever instantiates) raises the distinct runaway error exactly at the
eleventh visit of `A`, as the claim describes. -/
theorem C1_loop_guard_never_invoked :
    (runBurst oracleDemo 30 cycleCtx (saveContext {} cycleCtx)).2.2 = RunResult.fuelOut
    ∧ (runBurst oracleDemo 30 cycleCtx (saveContext {} cycleCtx)).2.1.count "A" = 15
    ∧ (runBurst oracleDemo 30 cycleCtx (saveContext {} cycleCtx)).2.1.count "B" = 15
    ∧ runDetector {} (runBurst oracleDemo 30 cycleCtx (saveContext {} cycleCtx)).2.1
        = .error "Infinite loop detected: node \"A\" visited 11 times" :=
  ⟨rfl, rfl, rfl, rfl⟩

/-! ## Claim C5 — `waitingForInput` suspends the burst -/

/-- C5: (i) whenever a node dispatch leaves the context with
`waitingForInput = true`, the engine persists that context and ends the
burst immediately — the dispatched node is the only dispatch of the burst,
the outcome is SUSPENDED, and the store keeps the context; (ii) the only
path on which `handleMessageInWorkflow` starts a burst again is the
qualifying-message path, and the context that burst starts from has
`waitingForInput` already cleared — so no automatic dispatch happens for a
waiting conversation until a qualifying inbound message clears the flag. -/
theorem C5_waiting_stops_burst :
    (∀ (ora : Oracle) (fuel : Nat) (ctx : Ctx) (st : EngineState) (nid : String)
       (node : Node) (out : ExecOut),
      ctx.currentNodeId = some nid →
      ctx.workflow.nodes.find? (fun n => n.id == nid) = some node →
      executeNode ora node ctx = .ok out →
      (applyExecOut ctx out).waitingForInput = true →
      processNextNode ora (fuel + 1) ctx st =
        (saveContext { st with effects := st.effects ++ out.effects } (applyExecOut ctx out),
         [nid], RunResult.suspended))
    ∧ (∀ (ora : Oracle) (fuel : Nat) (conversationId message : String) (meta : JsonVal)
         (st : EngineState) (c : Ctx),
        (handleMessageInWorkflow ora fuel conversationId message meta st).burstCtx = some c →
        c.waitingForInput = false) := by
  constructor
  · intro ora fuel ctx st nid node out hcur hfind hexec hwait
    simp only [processNextNode, hcur, hfind, hexec]
    rw [if_pos hwait]
  · intro ora fuel conversationId message meta st c h
    unfold handleMessageInWorkflow at h
    cases hg : getContext st conversationId with
    | none => rw [hg] at h; simp at h
    | some context =>
      rw [hg] at h
      dsimp only at h
      by_cases hw : context.waitingForInput
      · simp only [hw, Bool.not_true, Bool.false_eq_true, if_false] at h
        cases hv : context.expectedInputValidation with
        | none =>
          rw [hv] at h
          dsimp only at h
          unfold resumeContext at h
          dsimp only at h
          injection h with h2
          rw [← h2]
        | some validation =>
          rw [hv] at h
          dsimp only at h
          cases hres : validateInput ora message validation with
          | error e => rw [hres] at h; simp at h
          | ok validationRes =>
            rw [hres] at h
            dsimp only at h
            by_cases hval : validationRes.valid
            · simp only [hval, Bool.not_true, Bool.false_eq_true, if_false] at h
              unfold resumeContext at h
              dsimp only at h
              injection h with h2
              rw [← h2]
            · simp [hval] at h
      · simp [hw] at h

/-- Witness for C5 at the concrete wait-for-input workflow: the burst stops
after the single dispatch, suspended, with the waiting context persisted. -/
theorem C5_waiting_stops_burst_witness :
    processNextNode oracleDemo 4 waitCtx (saveContext {} waitCtx) =
      (saveContext
        { saveContext {} waitCtx with
          effects := (saveContext {} waitCtx).effects
            ++ (executeTriggerUserInput waitNode.config waitCtx).effects }
        (applyExecOut waitCtx (executeTriggerUserInput waitNode.config waitCtx)),
       ["W"], RunResult.suspended) :=
  C5_waiting_stops_burst.1 oracleDemo 3 waitCtx (saveContext {} waitCtx) "W" waitNode
    (executeTriggerUserInput waitNode.config waitCtx) rfl rfl rfl rfl

/-! ## Claim C6 — retry policy of the synchronous engine -/

/-- C6: a node with `retryOnError = true` and `maxRetries = 3` whose
execution always fails is attempted exactly 3 times; the backoff delays
slept between consecutive attempts are 1000 ms then 2000 ms
(non-decreasing); after the third failure the error of the last attempt
propagates, unless `continueOnError` is set, in which case the loop
finishes with a synthetic non-fatal failed result and the run proceeds. -/
theorem C6_retry_policy (attemptExec : Nat → Except String SyncResult) (err : Nat → String)
    (config : NodeCfg) (hr : config.retryOnError = true) (hm : config.maxRetries = some 3)
    (hfail : ∀ n, attemptExec n = .error (err n)) :
    (syncNodeExec config attemptExec).attempts = 3
    ∧ (syncNodeExec config attemptExec).delays = [1000, 2000]
    ∧ (syncNodeExec config attemptExec).delays.Chain' (· ≤ ·)
    ∧ (config.continueOnError = true →
        (syncNodeExec config attemptExec).outcome =
          .finished { success := false, error := some (err 3), shouldContinue := true })
    ∧ (config.continueOnError = false →
        (syncNodeExec config attemptExec).outcome = .thrown (err 3)) := by
  have hmr : syncMaxRetries config = 3 := by simp [syncMaxRetries, hr, hm, jsOrNat]
  have h1 := hfail 1
  have h2 := hfail 2
  have h3 := hfail 3
  unfold syncNodeExec
  rw [hmr]
  by_cases hco : config.continueOnError
  · simp [syncAttempts, h1, h2, h3, hco]
  · simp [syncAttempts, h1, h2, h3, hco]

/-- Witness for C6: a concrete always-failing executor under
`retryOnError = true, maxRetries = 3, continueOnError = false`. -/
theorem C6_retry_policy_witness :
    (syncNodeExec retryConfig alwaysFailExec).attempts = 3
    ∧ (syncNodeExec retryConfig alwaysFailExec).delays = [1000, 2000]
    ∧ (syncNodeExec retryConfig alwaysFailExec).outcome = .thrown "boom" :=
  ⟨(C6_retry_policy alwaysFailExec (fun _ => "boom") retryConfig rfl rfl (fun _ => rfl)).1,
   (C6_retry_policy alwaysFailExec (fun _ => "boom") retryConfig rfl rfl (fun _ => rfl)).2.1,
   (C6_retry_policy alwaysFailExec (fun _ => "boom") retryConfig rfl rfl (fun _ => rfl)).2.2.2.2
     rfl⟩

/-! ## Claim C7 — failing validation replies and stays suspended -/

/-- C7: for a suspended conversation with `expectedInputValidation` set, an
inbound message on which validation evaluates to a failed result makes
`handleMessageInWorkflow` reply directly with the validation error message
and change nothing: the durable state is untouched (so the persisted
context still has `waitingForInput = true` and the same `currentNodeId`,
and no execution row turns FAILED), no node is dispatched, and no exception
escapes.  (The hypothesis `validateInput … = .ok r` with `r.valid = false`
is exactly "the message failed validation"; a syntactically invalid regex
pattern is a different event — `validateInput` throws, the exception
escapes the function unhandled, and no reply is produced — faithfully
outside this claim's scope.) -/
theorem C7_validation_failure_stays_suspended (ora : Oracle) (fuel : Nat)
    (conversationId message : String) (meta : JsonVal) (st : EngineState) (ctx : Ctx)
    (validation : InputValidation) (validationRes : ValidationOut)
    (hget : getContext st conversationId = some ctx)
    (hwait : ctx.waitingForInput = true)
    (hval : ctx.expectedInputValidation = some validation)
    (hres : validateInput ora message validation = .ok validationRes)
    (hfail : validationRes.valid = false) :
    handleMessageInWorkflow ora fuel conversationId message meta st =
      { reply := some
          { shouldRespond := true
            response := some (jsOrStr validationRes.errorMessage
              "Invalid input. Please try again.")
            continueWorkflow := false }
        st := st
        dispatches := []
        burstCtx := none } := by
  unfold handleMessageInWorkflow
  rw [hget]
  dsimp only
  rw [hwait]
  simp only [Bool.not_true, Bool.false_eq_true, if_false]
  rw [hval]
  dsimp only
  rw [hres]
  dsimp only
  rw [hfail]
  simp

/-- Witness for C7: under `oracleDemo` (whose e-mail validator rejects
everything) a non-e-mail message is answered with the configured error and
the state is left exactly as it was. -/
theorem C7_validation_failure_stays_suspended_witness :
    handleMessageInWorkflow oracleDemo 3 "convS" "not-an-email" .null (saveContext {} suspCtx)
      = { reply := some
            { shouldRespond := true
              response := some "Please provide a valid email"
              continueWorkflow := false }
          st := saveContext {} suspCtx
          dispatches := []
          burstCtx := none } :=
  C7_validation_failure_stays_suspended oracleDemo 3 "convS" "not-an-email" .null
    (saveContext {} suspCtx) suspCtx
    { type := some "email", errorMessage := some "Please provide a valid email" }
    { valid := false, errorMessage := some "Please provide a valid email"
      extractedData := .str "not-an-email" }
    rfl rfl rfl rfl rfl

/-! ## Claim C8 — no context means a no-op -/

/-- C8: on a conversation with no persisted context,
`handleMessageInWorkflow` returns `null` (the workflow is not handling the
message) and performs nothing: the durable state — contexts, execution
rows, effect trace — is returned unchanged, no context is created, and no
node is dispatched. -/
theorem C8_no_context_noop (ora : Oracle) (fuel : Nat) (conversationId message : String)
    (meta : JsonVal) (st : EngineState)
    (hnone : getContext st conversationId = none) :
    handleMessageInWorkflow ora fuel conversationId message meta st =
      { reply := none, st := st, dispatches := [], burstCtx := none } := by
  unfold handleMessageInWorkflow
  rw [hnone]

/-- Witness for C8 on the empty store. -/
theorem C8_no_context_noop_witness :
    handleMessageInWorkflow oracleDemo 3 "nobody" "hello" .null {} =
      { reply := none, st := {}, dispatches := [], burstCtx := none } :=
  C8_no_context_noop oracleDemo 3 "nobody" "hello" .null {} rfl

/-! ## Claim C9 — SSRF guard -/

theorem validateApiUrl_guarded (url prot host : String)
    (hp : parseUrl url = some (prot, host))
    (hblocked : (blockedHosts.contains (strToLower host) || isPrivateHost host) = true) :
    ∃ e, validateApiUrl url = .error e ∧ strStarts e "Cannot" = true := by
  unfold validateApiUrl
  rw [hp]
  dsimp only
  cases hb : blockedHosts.contains (strToLower host) with
  | true =>
    refine ⟨"Cannot call localhost or internal addresses", ?_, by decide⟩
    simp only [if_pos]
    rw [if_pos (show strStarts "Cannot call localhost or internal addresses" "Cannot" = true
      by decide)]
  | false =>
    rw [hb, Bool.false_or] at hblocked
    refine ⟨"Cannot call private networks", ?_, by decide⟩
    simp only [Bool.false_eq_true, if_false, hblocked, if_pos]
    rw [if_pos (show strStarts "Cannot call private networks" "Cannot" = true by decide)]

/-- C9 (amended): when the interpolated URL's hostname is on the engine's
blocklist (`localhost`, `127.0.0.1`, `0.0.0.0`, `::1`) or matches one of
its private-range prefixes (`192.168.*`, `10.*`, `172.16.*`–`172.31.*`,
`169.254.*`), SSRF validation throws a `Cannot …` error before any fetch,
`ACTION_API_CALL` propagates it, and the engine turns it into an ordinary
node error with **no** side effects: the durable state — including the
effect trace — is returned exactly as it was, and the burst fails.
Loopback addresses outside the blocklist are *not* rejected (see the
counterexample). -/
theorem C9_ssrf_guard_blocklist (ora : Oracle) (config : NodeCfg) (vars : Variables)
    (prot host : String) (fuel : Nat) (st : EngineState) (ctx : Ctx) (nid : String)
    (node : Node)
    (hp : parseUrl (interpolateVariables (jsOrStr config.url "") vars) = some (prot, host))
    (hblocked : (blockedHosts.contains (strToLower host) || isPrivateHost host) = true) :
    (∃ e, validateApiUrl (interpolateVariables (jsOrStr config.url "") vars) = .error e
        ∧ strStarts e "Cannot" = true)
    ∧ (∃ e, executeActionApiCall ora config vars = .error e)
    ∧ (ctx.currentNodeId = some nid →
        ctx.workflow.nodes.find? (fun n => n.id == nid) = some node →
        node.type = "ACTION_API_CALL" → node.config = config → ctx.variables = vars →
        ∃ e, processNextNode ora (fuel + 1) ctx st = (st, [nid], RunResult.failed e)) := by
  obtain ⟨e, he, hc⟩ := validateApiUrl_guarded _ prot host hp hblocked
  have hcall : executeActionApiCall ora config vars = .error e := by
    unfold executeActionApiCall
    dsimp only
    rw [he]
  refine ⟨⟨e, he, hc⟩, ⟨e, hcall⟩, ?_⟩
  intro hcur hfind htype hcfg hvars
  refine ⟨e, ?_⟩
  have hexec : executeNode ora node ctx = .error e := by
    rcases node with ⟨nodeId, nodeType, nodeLabel, nodeConfig⟩
    dsimp only at htype hcfg
    subst htype
    subst hcfg
    have hred : executeNode ora ⟨nodeId, "ACTION_API_CALL", nodeLabel, nodeConfig⟩ ctx
        = executeActionApiCall ora nodeConfig ctx.variables := rfl
    rw [hred, hvars]
    exact hcall
  simp only [processNextNode, hcur, hfind, hexec]

/-- Witness for C9 (amended) at `url = "http://127.0.0.1/admin"`: the node
errors and the burst fails with the durable state untouched. -/
theorem C9_ssrf_guard_blocklist_witness :
    (∃ e, executeActionApiCall oracleDemo ssrfConfig [] = .error e)
    ∧ (∃ e, processNextNode oracleDemo 3 ssrfCtx (saveContext {} ssrfCtx)
        = (saveContext {} ssrfCtx, ["P"], RunResult.failed e)) :=
  ⟨(C9_ssrf_guard_blocklist oracleDemo ssrfConfig [] "http:" "127.0.0.1" 2
      (saveContext {} ssrfCtx) ssrfCtx "P"
      { id := "P", type := "ACTION_API_CALL", config := ssrfConfig }
      rfl (by decide)).2.1,
   (C9_ssrf_guard_blocklist oracleDemo ssrfConfig [] "http:" "127.0.0.1" 2
      (saveContext {} ssrfCtx) ssrfCtx "P"
      { id := "P", type := "ACTION_API_CALL", config := ssrfConfig }
      rfl (by decide)).2.2 rfl rfl rfl rfl rfl⟩

/-- Counterexample to C9 as stated: `127.0.0.2` **is** a loopback address,
yet it is neither on the blocklist nor in a private-range prefix, so
validation passes and the fetch *is* performed (the `fetch` effect is
issued) — the SSRF guard does not cover the whole loopback block. -/
theorem C9_loopback_bypass_counterexample :
    isLoopbackIPv4Host "127.0.0.2" = true
    ∧ validateApiUrl "http://127.0.0.2/admin" = .ok ()
    ∧ executeActionApiCall oracleDemo { url := some "http://127.0.0.2/admin" } []
        = .ok { data := [("apiError", .str "fetch failed"), ("apiSuccess", .bool false)]
                effects := [Effect.fetch "http://127.0.0.2/admin"] } :=
  ⟨rfl, rfl, rfl⟩
